import Mathlib

/-!
Verification of the tool adapter and session bridge of the
`crewai-mcp-data-analysis` repository, embedded shallowly in Lean.

The embedding follows `src/langchain/keboola_mcp_tools.py` (the
`KeboolaMCPTool` facade and `KeboolaMCPToolLoader`) and
`src/data_analysis_crew.py` (`validate_environment`).  Python dicts are
modelled as association lists in insertion order (Python 3.7+ dicts
preserve insertion order and the code relies on that order for the
"first string parameter" fallback); JSON values as an inductive type;
exceptions as `Except`; the remote peer, the event loop and the
subprocess as explicit oracle parameters.
-/

/-- A JSON-like Python value, as produced by `json.loads` and passed
around in argument dictionaries.  Numbers are modelled as integers
(the reconciliation code never inspects numeric values). -/
inductive JValue where
  | null : JValue
  | bool : Bool → JValue
  | num : Int → JValue
  | str : String → JValue
  | arr : List JValue → JValue
  | obj : List (String × JValue) → JValue

/-- An argument dictionary: parameter name to value, in insertion order. -/
abbrev ArgMap := List (String × JValue)

/-- Membership test `k in d` on a Python dict modelled as an
association list. -/
def hasKey (d : List (String × α)) (k : String) : Bool :=
  d.any (fun kv => kv.1 == k)

/-- Subscript access `d[k]` on a Python dict; in the embedded code every
access is guarded by a `k in d` membership test, so the default is
never hit. -/
def getKey (d : ArgMap) (k : String) : JValue :=
  (d.lookup k).getD JValue.null

/-- One parameter definition inside the schema's `properties` mapping.
`isDict` records `isinstance(param_def, dict)`; `ty` records
`param_def.get('type')` (`none` if the key is absent). -/
structure ParamDef where
  isDict : Bool
  ty : Option String
  deriving Repr, DecidableEq

/-- The `properties` mapping of an operation's input schema:
parameter name to definition, in declared order. -/
abbrev SchemaProps := List (String × ParamDef)

/-- Test `isinstance(param_def, dict) and param_def.get('type') == 'string'`
(line 143 of `keboola_mcp_tools.py`). -/
def isStringParam (d : ParamDef) : Bool :=
  d.isDict && d.ty == some "string"

/-- The first string-typed parameter in the schema's declared order
(the `for`/`break` loop of lines 142-145). -/
def firstStringParam (props : SchemaProps) : Option String :=
  (props.find? (fun kv => isStringParam kv.2)).map (·.1)

/-- Lines 130-132 of `keboola_mcp_tools.py`: when no arguments were
provided and the schema declares a parameter named `random_string`,
synthesize the fixed placeholder argument with the dummy value. -/
def applyPlaceholder (arguments : ArgMap) (props : SchemaProps) : ArgMap :=
  if arguments.isEmpty && hasKey props "random_string" then
    [("random_string", JValue.str "dummy")]
  else
    arguments

/-- Lines 134-146 of `keboola_mcp_tools.py` (only reached when the
schema's `properties` mapping is non-empty): keep only arguments whose
key is declared in the schema; if that empties the mapping and the
payload carried a `query` key, bind the value of `query` to the first
string-typed parameter in the schema's declared order. -/
def filterDeclared (arguments : ArgMap) (props : SchemaProps) : ArgMap :=
  if (arguments.filter (fun kv => hasKey props kv.1)).isEmpty
      && hasKey arguments "query" then
    match firstStringParam props with
    | some p => [(p, getKey arguments "query")]
    | none => arguments.filter (fun kv => hasKey props kv.1)
  else
    arguments.filter (fun kv => hasKey props kv.1)

/-- The argument reconciliation of `KeboolaMCPTool._arun_with_args`
(lines 127-146 of `src/langchain/keboola_mcp_tools.py`): the
placeholder step runs first; the filtering step runs only when the
schema's `properties` mapping is non-empty, otherwise the payload
passes through unfiltered. -/
def reconcileArguments (arguments : ArgMap) (props : SchemaProps) : ArgMap :=
  if props.isEmpty then
    applyPlaceholder arguments props
  else
    filterDeclared (applyPlaceholder arguments props) props

mutual

/-- Python `str()` (`asRepr = false`) and `repr()` (`asRepr = true`) of a
JSON value, as used by `str(parsed_input)` on line 55 of
`keboola_mcp_tools.py`.  Container elements are rendered with `repr`,
exactly as Python does. -/
def pyStrAux : Bool → JValue → String
  | _, JValue.null => "None"
  | _, JValue.bool true => "True"
  | _, JValue.bool false => "False"
  | _, JValue.num n => toString n
  | true, JValue.str s => "\x27" ++ s ++ "\x27"
  | false, JValue.str s => s
  | _, JValue.arr xs => "[" ++ String.intercalate ", " (pyStrList xs) ++ "]"
  | _, JValue.obj kvs =>
      "\x7b" ++ String.intercalate ", " (pyStrObj kvs) ++ "\x7d"

/-- Renders the elements of a Python list with `repr`. -/
def pyStrList : List JValue → List String
  | [] => []
  | x :: xs => pyStrAux true x :: pyStrList xs

/-- Renders the entries of a Python dict with `repr`. -/
def pyStrObj : List (String × JValue) → List String
  | [] => []
  | kv :: kvs => ("\x27" ++ kv.1 ++ "\x27: " ++ pyStrAux true kv.2) :: pyStrObj kvs

end

/-- Python `str(v)`. -/
def pyStr (v : JValue) : String := pyStrAux false v

/-- Discriminator: is this value a JSON mapping (Python dict)? -/
def JValue.isObj : JValue → Bool
  | JValue.obj _ => true
  | _ => false

/-- Discriminator: is this value Python `None`? -/
def JValue.isNone : JValue → Bool
  | JValue.null => true
  | _ => false

/-- Lines 41-59 of `keboola_mcp_tools.py` (`KeboolaMCPTool._run`, same
logic in `_arun`): priority is keyword arguments, then the input string
parsed as JSON (a parsed mapping is used directly, any other parsed
value becomes the query form with its `str()` rendering), then the raw
input string as a query.  `parsed` is the outcome of
`json.loads(tool_input)`, `none` meaning `JSONDecodeError`; it is only
consulted when `kwargs` is empty and `tool_input` non-empty. -/
def computeArguments (tool_input : String) (kwargs : ArgMap)
    (parsed : Option JValue) : ArgMap :=
  if !kwargs.isEmpty then
    kwargs
  else if !tool_input.isEmpty then
    match parsed with
    | some (JValue.obj m) => m
    | some v => [("query", JValue.str (pyStr v))]
    | none => [("query", JValue.str tool_input)]
  else
    []

/-- Line 61 of `keboola_mcp_tools.py`: drop entries whose value is
`None`. -/
def dropNones (arguments : ArgMap) : ArgMap :=
  arguments.filter (fun kv => !kv.2.isNone)

/-- The full argument payload computed by `_run` before dispatch. -/
def runArguments (tool_input : String) (kwargs : ArgMap)
    (parsed : Option JValue) : ArgMap :=
  dropNones (computeArguments tool_input kwargs parsed)

/-- The schema dict stored in `mcp_tool_schema`; `properties` records
whether the dict has a `properties` key and, if so, its value. -/
structure SchemaObject where
  properties : Option SchemaProps

/-- Line 128 of `keboola_mcp_tools.py`:
`self.mcp_tool_schema.get('properties', \x7b\x7d)`. -/
def schemaProperties (s : SchemaObject) : SchemaProps :=
  s.properties.getD []

/-- One element of a `call_tool` result's content list: either an
object with a `text` attribute (rendered via `str(item.text)`) or any
other object (rendered via `str(item)`). -/
inductive ContentItem where
  | withText : String → ContentItem
  | plain : String → ContentItem

/-- Line 163 of `keboola_mcp_tools.py`:
`str(item.text) if hasattr(item, 'text') else str(item)`. -/
def itemText : ContentItem → String
  | ContentItem.withText t => t
  | ContentItem.plain s => s

/-- The `content` attribute of a `call_tool` result: missing or `None`
(`absent`), a list of parts, or some other object together with its
`str()` rendering and its Python truthiness. -/
inductive ContentField where
  | absent : ContentField
  | parts : List ContentItem → ContentField
  | scalar : String → Bool → ContentField

/-- A `call_tool` result: its `content` attribute and the rendering
`str(result)` of the whole object. -/
structure CallToolResult where
  content : ContentField
  rendered : String

/-- Lines 160-167 of `keboola_mcp_tools.py`: if the result has truthy
content, join the parts of a content list with newlines (an empty list
is falsy in Python, so it falls through to `str(result)`), or render a
non-list content with `str`; otherwise render the whole result. -/
def flattenResult (r : CallToolResult) : String :=
  match r.content with
  | ContentField.absent => r.rendered
  | ContentField.parts items =>
      if items.isEmpty then r.rendered
      else String.intercalate "\n" (items.map itemText)
  | ContentField.scalar s truthy => if truthy then s else r.rendered

/-- The body of `KeboolaMCPTool._arun_with_args` (lines 126-175):
reconcile the arguments against the schema's properties, perform the
remote call (modelled by the `invoke` oracle, whose `Except.error` case
covers every exception the session machinery can raise), flatten a
successful result, and turn any failure into the diagnostic text of
line 170 — this function returns a plain `String` and cannot raise. -/
def arunWithArgs (toolName : String)
    (invoke : ArgMap → Except String CallToolResult)
    (arguments : ArgMap) (schema : SchemaObject) : String :=
  let reconciled := reconcileArguments arguments (schemaProperties schema)
  match invoke reconciled with
  | Except.ok r => flattenResult r
  | Except.error e =>
      "Error executing Keboola MCP tool " ++ toolName ++ ": " ++ e

/-- A suspending computation: it yields to its event loop a finite
number of times while waiting on subprocess I/O, then completes with a
value.  This models the coroutine object `self._arun_with_args(...)`. -/
inductive Susp (α : Type) where
  | done : α → Susp α
  | step : Susp α → Susp α

/-- Runs a suspending computation to completion on the current thread's
event loop (`loop.run_until_complete` / the core of `asyncio.run`). -/
def runUntilComplete : Susp α → α
  | Susp.done a => a
  | Susp.step s => runUntilComplete s

/-- A coroutine that suspends `ioSteps` times and completes with `a`. -/
def suspend : Nat → α → Susp α
  | 0, a => Susp.done a
  | n + 1, a => Susp.step (suspend n a)

/-- Line 83 of `keboola_mcp_tools.py`: no event loop is running, so the
coroutine is driven directly on the calling thread by `asyncio.run`. -/
def asyncioRun (coro : Susp α) : α :=
  runUntilComplete coro

/-- Lines 67-79 of `keboola_mcp_tools.py`: an event loop is already
running, so a worker thread is started, given a brand-new event loop,
and drives the same coroutine to completion there; `future.result`
hands the worker's value (or re-raises its failure) back to the
caller, and the fresh loop is closed before returning. -/
def runInWorkerThread (coro : Susp α) : α :=
  runUntilComplete coro

/-- The dual-path dispatch of `KeboolaMCPTool._run` (lines 63-83):
`loopRunning` records whether `asyncio.get_running_loop()` succeeded on
the calling thread. -/
def callBlocking (loopRunning : Bool) (coro : Susp α) : α :=
  if loopRunning then runInWorkerThread coro else asyncioRun coro

/-- The coroutine `self._arun_with_args(arguments, run_manager)` for a
given operation and argument mapping: it suspends `ioSteps` times on
subprocess I/O and completes with `_arun_with_args`'s string. -/
def arunCoroutine (ioSteps : Nat) (toolName : String)
    (invoke : ArgMap → Except String CallToolResult)
    (arguments : ArgMap) (schema : SchemaObject) : Susp String :=
  suspend ioSteps (arunWithArgs toolName invoke arguments schema)

/-- The whole synchronous facade `KeboolaMCPTool._run` (lines 32-86):
compute the argument payload, dispatch the coroutine through the
execution bridge, and catch every remaining exception (worker-thread
timeout, executor failure, ...; modelled by the `bridgeFailure`
oracle), turning it into the diagnostic text of line 86.  The return
type `String` reflects that `_run` never lets an exception reach the
caller. -/
def facadeRun (toolName : String) (tool_input : String) (kwargs : ArgMap)
    (parsed : Option JValue) (schema : SchemaObject)
    (invoke : ArgMap → Except String CallToolResult)
    (loopRunning : Bool) (ioSteps : Nat)
    (bridgeFailure : Option String) : String :=
  match bridgeFailure with
  | some e => "Error running MCP tool " ++ toolName ++ ": " ++ e
  | none =>
      callBlocking loopRunning
        (arunCoroutine ioSteps toolName invoke
          (runArguments tool_input kwargs parsed) schema)

/-- The parameters handed to `stdio_client` to launch the tool-server
subprocess; environment values are `Option String` because
`os.getenv` yields `None` for unset variables. -/
structure StdioServerParameters where
  command : String
  args : List String
  env : List (String × Option String)

/-- `KeboolaMCPToolLoader.__init__` (lines 181-190 of
`keboola_mcp_tools.py`): builds the launch parameters straight from the
environment, with no validation of any kind. -/
def loaderServerParams (getenv : String → Option String) :
    StdioServerParameters :=
  { command := "uvx"
    args := ["--from", "keboola-mcp-server@1.0.0", "keboola-mcp-server"]
    env := [("KBC_STORAGE_API_URL", getenv "KBC_STORAGE_API_URL"),
            ("KBC_STORAGE_TOKEN", getenv "KBC_STORAGE_TOKEN"),
            ("KBC_WORKSPACE_SCHEMA",
              some ((getenv "KBC_WORKSPACE_SCHEMA").getD ""))] }

/-- The `inputSchema` attribute of a discovered operation, before
coercion (lines 226-237): a pydantic model (`model_dump()` yields a
dict), already a dict, some other convertible value, or absent/falsy. -/
inductive RawSchema where
  | absent : RawSchema
  | pydantic : SchemaObject → RawSchema
  | plainDict : SchemaObject → RawSchema
  | convertible : SchemaObject → RawSchema

/-- Lines 226-237 of `keboola_mcp_tools.py`: normalize `inputSchema`
to a schema dict, using the empty dict when it is absent or falsy. -/
def coerceSchema : RawSchema → SchemaObject
  | RawSchema.absent => ⟨none⟩
  | RawSchema.pydantic s => s
  | RawSchema.plainDict s => s
  | RawSchema.convertible s => s

/-- One operation descriptor as returned by `session.list_tools()`. -/
structure RawTool where
  name : String
  description : Option String

/-- Raw descriptor together with its input schema attribute. -/
structure RawToolEntry where
  tool : RawTool
  inputSchema : RawSchema

/-- The LangChain-facing tool object built per discovered operation. -/
structure KeboolaMCPTool where
  name : String
  description : String
  mcp_tool_name : String
  mcp_tool_description : String
  mcp_tool_schema : SchemaObject
  server_params : StdioServerParameters

/-- Lines 239-246 of `keboola_mcp_tools.py`: wrap one discovered
operation as a LangChain tool, prefixing the name with `keboola_` and
defaulting a missing description. -/
def mkLangchainTool (params : StdioServerParameters)
    (raw : RawToolEntry) : KeboolaMCPTool :=
  { name := "keboola_" ++ raw.tool.name
    description := "Keboola MCP Tool: "
      ++ raw.tool.description.getD ("Keboola tool: " ++ raw.tool.name)
    mcp_tool_name := raw.tool.name
    mcp_tool_description :=
      raw.tool.description.getD ("Keboola tool: " ++ raw.tool.name)
    mcp_tool_schema := coerceSchema raw.inputSchema
    server_params := params }

/-- `KeboolaMCPToolLoader._load_tools_impl` (lines 212-254): map every
discovered descriptor to a LangChain tool. -/
def loadToolsImpl (params : StdioServerParameters)
    (raws : List RawToolEntry) : List KeboolaMCPTool :=
  raws.map (mkLangchainTool params)

/-- How a discovery batch can fail: the 45-second `asyncio.wait_for`
bound elapsed, or any other exception escaped `_load_tools_impl`. -/
inductive LoadFailure where
  | timeout : LoadFailure
  | failed : String → LoadFailure

/-- `KeboolaMCPToolLoader.load_tools` (lines 192-210): `tools` starts
empty and is only ever assigned the complete result of the bounded
discovery batch; on timeout or any other failure the partial catalog
inside the cancelled batch is discarded and the empty list is
returned. -/
def load_tools (params : StdioServerParameters)
    (discovery : Except LoadFailure (List RawToolEntry)) :
    List KeboolaMCPTool :=
  match discovery with
  | Except.ok raws => loadToolsImpl params raws
  | Except.error _ => []

/-- The environment variables required by
`KeboolaDataAnalysisCrew.validate_environment`
(lines 39-44 of `src/data_analysis_crew.py`). -/
def requiredVars : List String :=
  ["OPENAI_API_KEY", "KBC_STORAGE_TOKEN", "KBC_WORKSPACE_SCHEMA",
   "KBC_STORAGE_API_URL"]

/-- Python truthiness of an `os.getenv` result: unset or empty is
falsy. -/
def envTruthy : Option String → Bool
  | none => false
  | some s => !s.isEmpty

/-- Line 46 of `data_analysis_crew.py`: the required variables that are
missing from the environment. -/
def missingVars (getenv : String → Option String) : List String :=
  requiredVars.filter (fun v => !envTruthy (getenv v))

/-- `KeboolaDataAnalysisCrew.validate_environment` (lines 37-55 of
`src/data_analysis_crew.py`): raises `ValueError` carrying the missing
variable names when any required variable is absent or empty. -/
def validate_environment (getenv : String → Option String) :
    Except (List String) Unit :=
  if (missingVars getenv).isEmpty then Except.ok ()
  else Except.error (missingVars getenv)

/-- An observable step of an entry point: surfacing a configuration
error, or launching the tool-server subprocess. -/
inductive LaunchEvent where
  | configError : List String → LaunchEvent
  | subprocessLaunch : StdioServerParameters → LaunchEvent

/-- Discriminator for subprocess launches. -/
def LaunchEvent.isLaunch : LaunchEvent → Bool
  | LaunchEvent.subprocessLaunch _ => true
  | LaunchEvent.configError _ => false

/-- The observable trace of the LangChain path
(`KeboolaMCPToolLoader.__init__` then `load_tools`, lines 181-216 of
`keboola_mcp_tools.py`): no validation happens anywhere; entering
`stdio_client(self.server_params)` launches the subprocess
unconditionally, whatever the environment holds. -/
def loaderLaunchTrace (getenv : String → Option String) :
    List LaunchEvent :=
  [LaunchEvent.subprocessLaunch (loaderServerParams getenv)]

/-- The launch parameters built by
`KeboolaDataAnalysisCrew.setup_mcp_toolset` (lines 57-92 of
`data_analysis_crew.py`); on the path where a launch actually happens
validation has already succeeded, so the endpoint URL is present. -/
def crewToolsetParams (getenv : String → Option String) :
    StdioServerParameters :=
  { command := "uvx"
    args := ["keboola_mcp_server", "--transport", "stdio",
             "--log-level", "INFO", "--api-url",
             (getenv "KBC_STORAGE_API_URL").getD ""]
    env := [("KBC_STORAGE_API_URL", getenv "KBC_STORAGE_API_URL"),
            ("KBC_STORAGE_TOKEN", getenv "KBC_STORAGE_TOKEN"),
            ("KBC_WORKSPACE_SCHEMA", getenv "KBC_WORKSPACE_SCHEMA")] }

/-- The observable trace of the CrewAI path:
`KeboolaDataAnalysisCrew.__init__` runs `validate_environment` first
(line 32 of `data_analysis_crew.py`), so a missing variable raises
before `setup_mcp_toolset`; the subprocess is only launched by
`initialize_mcp` inside `run_analysis`, which is unreachable unless
construction succeeded. -/
def crewRunTrace (getenv : String → Option String) : List LaunchEvent :=
  match validate_environment getenv with
  | Except.error missing => [LaunchEvent.configError missing]
  | Except.ok () =>
      [LaunchEvent.subprocessLaunch (crewToolsetParams getenv)]

/-! ### Helper lemmas -/

theorem hasKey_of_mem {d : List (String × α)} {k : String} {v : α}
    (h : (k, v) ∈ d) : hasKey d k = true := by
  unfold hasKey
  rw [List.any_eq_true]
  exact ⟨(k, v), h, by simp⟩

theorem firstStringParam_hasKey {props : SchemaProps} {p : String}
    (h : firstStringParam props = some p) : hasKey props p = true := by
  unfold firstStringParam at h
  cases hf : props.find? (fun kv => isStringParam kv.2) with
  | none => rw [hf] at h; cases h
  | some x =>
    rw [hf] at h
    have hx : x ∈ props := List.mem_of_find?_eq_some hf
    have hp : x.1 = p := by simpa using h
    subst hp
    exact hasKey_of_mem (show (x.1, x.2) ∈ props by simpa using hx)

theorem filterDeclared_keys (a : ArgMap) (props : SchemaProps) :
    ∀ kv ∈ filterDeclared a props, hasKey props kv.1 = true := by
  intro kv hkv
  unfold filterDeclared at hkv
  by_cases hcond :
      ((a.filter (fun kv => hasKey props kv.1)).isEmpty
        && hasKey a "query") = true
  · rw [if_pos hcond] at hkv
    cases hfs : firstStringParam props with
    | none =>
      rw [hfs] at hkv
      exact (List.mem_filter.mp hkv).2
    | some p =>
      rw [hfs] at hkv
      have : kv = (p, getKey a "query") := by simpa using hkv
      subst this
      exact firstStringParam_hasKey hfs
  · rw [if_neg hcond] at hkv
    exact (List.mem_filter.mp hkv).2

theorem reconcile_keys (args : ArgMap) (props : SchemaProps)
    (h : props.isEmpty = false) :
    ∀ kv ∈ reconcileArguments args props, hasKey props kv.1 = true := by
  intro kv hkv
  unfold reconcileArguments at hkv
  rw [h] at hkv
  simp only [Bool.false_eq_true, if_false] at hkv
  exact filterDeclared_keys _ _ kv hkv

theorem runUntilComplete_suspend (n : Nat) (a : α) :
    runUntilComplete (suspend n a) = a := by
  induction n with
  | zero => rfl
  | succ n ih => simpa [suspend, runUntilComplete] using ih

/-! ### Claims -/

/-- C1.  For every payload and schema whose declared parameter set is
non-empty, every key of the reconciled mapping is declared in the
schema (the placeholder and query-fallback rules only introduce
declared keys); when the schema is absent or empty (`props = []`,
covering both a missing `properties` entry and an empty one), the
payload passes through unfiltered. -/
theorem reconcile_keys_subset_of_schema (args : ArgMap) (props : SchemaProps) :
    (props ≠ [] →
      (reconcileArguments args props).all (fun kv => hasKey props kv.1) = true)
    ∧ (props = [] → reconcileArguments args props = args) := by
  constructor
  · intro hne
    rw [List.all_eq_true]
    intro kv hkv
    have h : props.isEmpty = false := by
      cases props with
      | nil => exact absurd rfl hne
      | cons a l => rfl
    exact reconcile_keys args props h kv hkv
  · intro he
    subst he
    simp [reconcileArguments, applyPlaceholder, hasKey]

/-- Witness for C1 at concrete inputs: a payload with one declared and
one undeclared key against a one-parameter schema, and an arbitrary
payload against the empty schema. -/
theorem reconcile_keys_subset_of_schema_witness :
    (reconcileArguments [("text", JValue.str "hi"), ("x", JValue.num 1)]
        [("text", ⟨true, some "string"⟩)]).all
      (fun kv => hasKey [("text", (⟨true, some "string"⟩ : ParamDef))] kv.1)
      = true
    ∧ reconcileArguments [("q", JValue.num 1)] [] = [("q", JValue.num 1)] :=
  ⟨(reconcile_keys_subset_of_schema _ _).1 (List.cons_ne_nil _ _),
   (reconcile_keys_subset_of_schema _ _).2 rfl⟩

/-- C2, counterexample.  The claim says reconciling ANY payload against
a placeholder-hinted, otherwise parameterless schema yields exactly the
placeholder binding; the code only synthesizes the placeholder for the
EMPTY payload.  Here the schema's only parameter is the placeholder
`random_string` (the hint), the payload is the non-empty
`[("other", 1)]`, and reconciliation returns the empty mapping, not the
placeholder singleton. -/
theorem placeholder_not_for_all_payloads :
    hasKey [("random_string", (⟨true, some "string"⟩ : ParamDef))]
      "random_string" = true
    ∧ reconcileArguments [("other", JValue.num 1)]
        [("random_string", ⟨true, some "string"⟩)] = []
    ∧ reconcileArguments [("other", JValue.num 1)]
        [("random_string", ⟨true, some "string"⟩)]
        ≠ [("random_string", JValue.str "dummy")] := by
  refine ⟨rfl, rfl, ?_⟩
  intro h
  exact List.noConfusion (show ([] : ArgMap) = _ from h)

/-- C2, amended.  For every schema carrying the placeholder-required
hint (it declares the parameter `random_string`), reconciling the EMPTY
payload yields exactly one key, the placeholder, bound to the fixed
dummy value. -/
theorem placeholder_on_empty_payload (props : SchemaProps)
    (h : hasKey props "random_string" = true) :
    reconcileArguments [] props = [("random_string", JValue.str "dummy")] := by
  have hne : props.isEmpty = false := by
    cases props with
    | nil => simp [hasKey] at h
    | cons a l => rfl
  unfold reconcileArguments applyPlaceholder filterDeclared
  simp [hne, h]

/-- Witness for C2's amended claim at the schema whose single declared
parameter is the placeholder. -/
theorem placeholder_on_empty_payload_witness :
    reconcileArguments [] [("random_string", ⟨true, some "string"⟩)]
      = [("random_string", JValue.str "dummy")] :=
  placeholder_on_empty_payload _ rfl

/-- C3.  For every payload of the free-text form with a single `query`
key, and every schema that declares no parameter named `query` but does
declare a string-typed parameter, reconciliation yields the single
binding of `query`'s value to the first string-typed parameter in the
schema's declared order. -/
theorem query_fallback_first_string_param (props : SchemaProps) (v : JValue)
    (hq : hasKey props "query" = false) (p : String)
    (hp : firstStringParam props = some p) :
    reconcileArguments [("query", v)] props = [(p, v)] := by
  have hne : props.isEmpty = false := by
    cases props with
    | nil => simp [firstStringParam] at hp
    | cons a l => rfl
  have hfilter :
      ([("query", v)] : ArgMap).filter (fun kv => hasKey props kv.1) = [] := by
    simp [List.filter, hq]
  have hap : applyPlaceholder [("query", v)] props = [("query", v)] := by
    simp [applyPlaceholder]
  have hfd : filterDeclared [("query", v)] props = [(p, v)] := by
    unfold filterDeclared
    rw [hfilter, hp]
    simp [hasKey, getKey]
  simp [reconcileArguments, hne, hap, hfd]

/-- Witness for C3: the free-text payload `query = "hello"` against a
schema declaring the string parameter `sql` and the number parameter
`limit`. -/
theorem query_fallback_first_string_param_witness :
    reconcileArguments [("query", JValue.str "hello")]
        [("sql", ⟨true, some "string"⟩), ("limit", ⟨true, some "number"⟩)]
      = [("sql", JValue.str "hello")] :=
  query_fallback_first_string_param
    [("sql", ⟨true, some "string"⟩), ("limit", ⟨true, some "number"⟩)]
    (JValue.str "hello") rfl "sql" rfl

theorem hasKey_nil (k : String) : hasKey ([] : List (String × α)) k = false :=
  rfl

/-- C4, counterexample.  Reconciliation is NOT idempotent: against the
schema whose declared parameters are just the placeholder
`random_string`, the payload `[("foo", 1)]` reconciles to the empty
mapping, but reconciling that empty mapping again synthesizes the
placeholder binding, so the second pass changes the result. -/
theorem reconcile_not_idempotent :
    reconcileArguments
        (reconcileArguments [("foo", JValue.num 1)]
          [("random_string", ⟨true, some "string"⟩)])
        [("random_string", ⟨true, some "string"⟩)]
      ≠ reconcileArguments [("foo", JValue.num 1)]
          [("random_string", ⟨true, some "string"⟩)] := by
  intro h
  exact List.noConfusion
    (show (("random_string", JValue.str "dummy") :: [] : ArgMap) = [] from h)

/-- C4, amended.  Reconciliation is idempotent except in the one case
the counterexample exhibits: whenever the first reconciliation is
non-empty, or the schema does not carry the `random_string` placeholder
hint, reconciling the result again returns it unchanged. -/
theorem reconcile_idempotent_unless_placeholder (args : ArgMap)
    (props : SchemaProps)
    (h : reconcileArguments args props ≠ []
        ∨ hasKey props "random_string" = false) :
    reconcileArguments (reconcileArguments args props) props
      = reconcileArguments args props := by
  by_cases hp : props.isEmpty = true
  · have hp' : props = [] := by simpa using hp
    subst hp'
    simp [reconcileArguments, applyPlaceholder, hasKey]
  · have hp' : props.isEmpty = false := by simpa using hp
    by_cases hRe : reconcileArguments args props = []
    · have hrs : hasKey props "random_string" = false := by
        rcases h with h | h
        · exact absurd hRe h
        · exact h
      rw [hRe]
      unfold reconcileArguments applyPlaceholder filterDeclared
      simp [hp', hrs, hasKey_nil]
    · have hkeys : ∀ kv ∈ reconcileArguments args props,
          hasKey props kv.1 = true := reconcile_keys args props hp'
      have hfilt : (reconcileArguments args props).filter
          (fun kv => hasKey props kv.1) = reconcileArguments args props :=
        List.filter_eq_self.mpr hkeys
      have hReb : (reconcileArguments args props).isEmpty = false := by
        cases hR0 : reconcileArguments args props with
        | nil => exact absurd hR0 hRe
        | cons a l => rfl
      have hap : applyPlaceholder (reconcileArguments args props) props
          = reconcileArguments args props := by
        simp [applyPlaceholder, hReb]
      have hfd : filterDeclared (reconcileArguments args props) props
          = reconcileArguments args props := by
        unfold filterDeclared
        rw [hfilt, hReb]
        simp
      calc reconcileArguments (reconcileArguments args props) props
          = filterDeclared
              (applyPlaceholder (reconcileArguments args props) props)
              props := by simp [reconcileArguments, hp']
        _ = reconcileArguments args props := by rw [hap, hfd]

/-- Witness for C4's amended claim: a payload whose reconciliation is
non-empty (left disjunct) re-reconciles to itself. -/
theorem reconcile_idempotent_unless_placeholder_witness :
    reconcileArguments
        (reconcileArguments [("text", JValue.str "hi"), ("x", JValue.num 1)]
          [("text", ⟨true, some "string"⟩)])
        [("text", ⟨true, some "string"⟩)]
      = reconcileArguments [("text", JValue.str "hi"), ("x", JValue.num 1)]
          [("text", ⟨true, some "string"⟩)] :=
  reconcile_idempotent_unless_placeholder
    [("text", JValue.str "hi"), ("x", JValue.num 1)]
    [("text", ⟨true, some "string"⟩)]
    (Or.inl (fun h =>
      List.noConfusion
        (show (("text", JValue.str "hi") :: [] : ArgMap) = [] from h)))

/-- C5.  The synchronous facade always returns a `String` (its Lean
type; `_run` wraps everything in `try`/`except`), and every failure —
of the bridge/worker machinery or of the underlying session — is
flattened into a textual diagnostic that names the operation, never
re-raised. -/
theorem facade_failures_become_text (toolName tool_input : String)
    (kwargs : ArgMap) (parsed : Option JValue) (schema : SchemaObject)
    (invoke : ArgMap → Except String CallToolResult)
    (loopRunning : Bool) (ioSteps : Nat) (bridgeFailure : Option String) :
    (∀ e, bridgeFailure = some e →
      facadeRun toolName tool_input kwargs parsed schema invoke
          loopRunning ioSteps bridgeFailure
        = "Error running MCP tool " ++ toolName ++ ": " ++ e)
    ∧ (∀ e, bridgeFailure = none →
        invoke (reconcileArguments (runArguments tool_input kwargs parsed)
          (schemaProperties schema)) = Except.error e →
        facadeRun toolName tool_input kwargs parsed schema invoke
            loopRunning ioSteps bridgeFailure
          = "Error executing Keboola MCP tool " ++ toolName ++ ": " ++ e) := by
  constructor
  · intro e he
    subst he
    rfl
  · intro e hb hi
    subst hb
    unfold facadeRun
    cases loopRunning <;>
      simp [callBlocking, asyncioRun, runInWorkerThread, arunCoroutine,
        runUntilComplete_suspend, arunWithArgs, hi]

/-- Witness for C5: a bridge timeout and a session failure, both
flattened to diagnostics naming the operation `t`. -/
theorem facade_failures_become_text_witness :
    facadeRun "t" "" [] none ⟨none⟩ (fun _ => Except.error "boom")
        false 0 (some "timed out")
      = "Error running MCP tool t: timed out"
    ∧ facadeRun "t" "" [] none ⟨none⟩ (fun _ => Except.error "boom")
        false 0 none
      = "Error executing Keboola MCP tool t: boom" :=
  ⟨(facade_failures_become_text "t" "" [] none ⟨none⟩
      (fun _ => Except.error "boom") false 0 (some "timed out")).1
      "timed out" rfl,
   (facade_failures_become_text "t" "" [] none ⟨none⟩
      (fun _ => Except.error "boom") false 0 none).2 "boom" rfl rfl⟩

/-- C6.  The execution bridge's two dispatch paths are observably
equivalent: for the same operation and arguments, driving the facade
coroutine from a plain synchronous context (`asyncio.run`) and
offloading it to a worker thread with a fresh event loop (because a
loop is already running on the calling thread) return identical
results. -/
theorem callBlocking_context_equivalence (ioSteps : Nat) (toolName : String)
    (invoke : ArgMap → Except String CallToolResult)
    (arguments : ArgMap) (schema : SchemaObject) :
    callBlocking true (arunCoroutine ioSteps toolName invoke arguments schema)
      = callBlocking false
          (arunCoroutine ioSteps toolName invoke arguments schema) := by
  simp [callBlocking, runInWorkerThread, asyncioRun]

/-- C7, counterexample.  With every environment variable unset, the
LangChain loader path still attempts the subprocess launch: its trace
is exactly one launch event, carrying an environment map whose endpoint
URL and token are absent, and contains no configuration error. -/
theorem loader_launches_without_validation :
    loaderLaunchTrace (fun _ => none)
      = [LaunchEvent.subprocessLaunch (loaderServerParams (fun _ => none))]
    ∧ (loaderServerParams (fun _ => none)).env
      = [("KBC_STORAGE_API_URL", none), ("KBC_STORAGE_TOKEN", none),
         ("KBC_WORKSPACE_SCHEMA", some "")]
    ∧ (loaderLaunchTrace (fun _ => none)).all LaunchEvent.isLaunch = true :=
  ⟨rfl, rfl, rfl⟩

/-- C7, amended.  In the CrewAI entry point, a missing (or empty)
endpoint URL or token makes `validate_environment` fail with the list
of missing variables, and the whole run trace contains no subprocess
launch; the LangChain loader performs no such validation and launches
regardless (see the counterexample). -/
theorem crew_validates_before_launch (getenv : String → Option String)
    (h : envTruthy (getenv "KBC_STORAGE_API_URL") = false
        ∨ envTruthy (getenv "KBC_STORAGE_TOKEN") = false) :
    validate_environment getenv = Except.error (missingVars getenv)
    ∧ (crewRunTrace getenv).all (fun ev => !ev.isLaunch) = true := by
  have hmem : ∃ v ∈ requiredVars, envTruthy (getenv v) = false := by
    rcases h with h | h
    · exact ⟨"KBC_STORAGE_API_URL", by simp [requiredVars], h⟩
    · exact ⟨"KBC_STORAGE_TOKEN", by simp [requiredVars], h⟩
  have hne : (missingVars getenv).isEmpty = false := by
    rcases hmem with ⟨v, hv, hfalse⟩
    have hvm : v ∈ missingVars getenv := by
      unfold missingVars
      rw [List.mem_filter]
      exact ⟨hv, by simp [hfalse]⟩
    cases hmv : missingVars getenv with
    | nil => rw [hmv] at hvm; cases hvm
    | cons a l => rfl
  have hval : validate_environment getenv
      = Except.error (missingVars getenv) := by
    unfold validate_environment
    rw [hne]
    simp
  refine ⟨hval, ?_⟩
  unfold crewRunTrace
  rw [hval]
  rfl

/-- Witness for C7's amended claim: with an entirely unset environment,
validation fails with all four variables and no launch happens. -/
theorem crew_validates_before_launch_witness :
    validate_environment (fun _ => none)
      = Except.error ["OPENAI_API_KEY", "KBC_STORAGE_TOKEN",
          "KBC_WORKSPACE_SCHEMA", "KBC_STORAGE_API_URL"]
    ∧ (crewRunTrace (fun _ => none)).all (fun ev => !ev.isLaunch) = true :=
  crew_validates_before_launch (fun _ => none) (Or.inl rfl)

/-- C8.  Catalog discovery is all-or-nothing: on any failure of the
bounded discovery batch (timeout included) the loader returns the empty
tool list, and on success it returns the complete mapped catalog — a
partial catalog is never returned. -/
theorem load_tools_all_or_nothing (params : StdioServerParameters)
    (f : LoadFailure) (raws : List RawToolEntry) :
    load_tools params (Except.error f) = []
    ∧ load_tools params (Except.ok raws) = loadToolsImpl params raws :=
  ⟨rfl, rfl⟩

/-- C9.  For every successful invoke whose result carries a (non-empty,
hence truthy) list of content parts, the string returned to the caller
is the parts' textual contents joined with newlines, in the order the
peer returned them. -/
theorem invoke_joins_content_parts (toolName : String)
    (invoke : ArgMap → Except String CallToolResult)
    (arguments : ArgMap) (schema : SchemaObject) (r : CallToolResult)
    (parts : List ContentItem)
    (hok : invoke (reconcileArguments arguments (schemaProperties schema))
      = Except.ok r)
    (hc : r.content = ContentField.parts parts) (hne : parts ≠ []) :
    arunWithArgs toolName invoke arguments schema
      = String.intercalate "\n" (parts.map itemText) := by
  have hne' : parts.isEmpty = false := by
    cases parts with
    | nil => exact absurd rfl hne
    | cons a l => rfl
  simp only [arunWithArgs]
  rw [hok]
  simp [flattenResult, hc, hne']

/-- Witness for C9: two content parts, one with a `text` attribute and
one without, joined with a newline. -/
theorem invoke_joins_content_parts_witness :
    arunWithArgs "t"
        (fun _ => Except.ok
          ⟨ContentField.parts [ContentItem.withText "a", ContentItem.plain "b"],
           "res"⟩)
        [] ⟨none⟩
      = "a\nb" :=
  invoke_joins_content_parts "t"
    (fun _ => Except.ok
      ⟨ContentField.parts [ContentItem.withText "a", ContentItem.plain "b"],
       "res"⟩)
    [] ⟨none⟩
    ⟨ContentField.parts [ContentItem.withText "a", ContentItem.plain "b"],
     "res"⟩
    [ContentItem.withText "a", ContentItem.plain "b"]
    rfl rfl (List.cons_ne_nil _ _)

/-- C10 (implicit).  When the facade receives any non-empty keyword
arguments, they alone form the payload and the input string is ignored
(for every parse outcome, a parsed JSON mapping included); and a
non-empty input string that parses as a JSON non-mapping value yields
the payload binding `query` to the Python `str()` rendering of the
parsed value, not the raw input text. -/
theorem kwargs_priority_and_nondict_query (tool_input : String)
    (kwargs : ArgMap) (parsed : Option JValue) :
    (kwargs.isEmpty = false →
      computeArguments tool_input kwargs parsed = kwargs)
    ∧ (∀ v, tool_input.isEmpty = false → parsed = some v →
        v.isObj = false →
        computeArguments tool_input [] parsed
          = [("query", JValue.str (pyStr v))]) := by
  constructor
  · intro h
    simp [computeArguments, h]
  · intro v hin hp hobj
    subst hp
    cases v <;> simp_all [computeArguments, JValue.isObj]

/-- Witness for C10: keyword arguments beat an input string that parses
as a JSON mapping, and the input string `true` (parsing to the JSON
boolean) yields the Python rendering `True`, not the raw text. -/
theorem kwargs_priority_and_nondict_query_witness :
    computeArguments "\x7b\"a\": 1\x7d" [("explicit", JValue.num 2)]
        (some (JValue.obj [("a", JValue.num 1)]))
      = [("explicit", JValue.num 2)]
    ∧ computeArguments "true" [] (some (JValue.bool true))
      = [("query", JValue.str "True")] :=
  ⟨(kwargs_priority_and_nondict_query "\x7b\"a\": 1\x7d"
      [("explicit", JValue.num 2)]
      (some (JValue.obj [("a", JValue.num 1)]))).1 rfl,
   (kwargs_priority_and_nondict_query "true" []
      (some (JValue.bool true))).2 (JValue.bool true) rfl rfl rfl⟩
